import Mathlib

/-!
Shallow embedding of the `streamlit-page-analytics` package
(`src/streamlit_page_analytics/`): the widget-attribute extractor, the
identity resolver, the user-event logger, the wrapped-widget interceptor,
the installation controller, and the supporting data model
(`Widget`, `UserEvent`, `WidgetMappingKey`, `clean_values`).

Python values are embedded as the inductive `PyVal`; callables are
defunctionalised as numeric tags applied through an explicit call
environment.  Fallible Python operations (`[]` lookups, keyword-argument
binding) return `Except String`, the error string naming the Python
exception raised.
-/

namespace SPA

/-- Embedding of the Python values this package manipulates.  Callables are
represented by numeric tags (`callback`), interpreted by an explicit call
environment when invoked. -/
inductive PyVal where
  | none
  | bool (b : Bool)
  | int (n : Int)
  | str (s : String)
  | list (xs : List PyVal)
  | dict (entries : List (String × PyVal))
  | callback (tag : Nat)

/-- Python truthiness (`bool(v)`) for the embedded values. -/
def pyTruthy : PyVal → Bool
  | PyVal.none => false
  | PyVal.bool b => b
  | PyVal.int n => n != 0
  | PyVal.str s => s != ""
  | PyVal.list xs => !xs.isEmpty
  | PyVal.dict es => !es.isEmpty
  | PyVal.callback _ => true

/-- The `v is None` test. -/
def isPyNone : PyVal → Bool
  | PyVal.none => true
  | _ => false

/-- First value stored under a key in an insertion-ordered dictionary,
embedded as an association list. -/
def kwLookup {κ α : Type} [BEq κ] (es : List (κ × α)) (k : κ) : Option α :=
  (es.find? (fun p => p.1 == k)).map Prod.snd

/-- Python `del d[k]`: drop the entries stored under `k`. -/
def kwErase {κ α : Type} [BEq κ] (es : List (κ × α)) (k : κ) : List (κ × α) :=
  es.filter (fun p => p.1 != k)

/-- Python `d[k] = v`: replace the value under an existing key in place,
otherwise append the new binding at the end (insertion order). -/
def kwSet {κ α : Type} [BEq κ] (es : List (κ × α)) (k : κ) (v : α) : List (κ × α) :=
  if es.any (fun p => p.1 == k) then
    es.map (fun p => if p.1 == k then (k, v) else p)
  else
    es ++ [(k, v)]

/-- UTF-8 encoding of one Unicode scalar value (`str.encode`). -/
def utf8Bytes (c : Nat) : List Nat :=
  if c < 0x80 then [c]
  else if c < 0x800 then
    [0xC0 ||| (c >>> 6), 0x80 ||| (c &&& 0x3F)]
  else if c < 0x10000 then
    [0xE0 ||| (c >>> 12), 0x80 ||| ((c >>> 6) &&& 0x3F), 0x80 ||| (c &&& 0x3F)]
  else
    [0xF0 ||| (c >>> 18), 0x80 ||| ((c >>> 12) &&& 0x3F),
     0x80 ||| ((c >>> 6) &&& 0x3F), 0x80 ||| (c &&& 0x3F)]

/-- UTF-8 byte sequence of a string (`s.encode()`). -/
def strBytes (s : String) : List Nat :=
  (s.data.map (fun ch => utf8Bytes ch.toNat)).flatten

/-- One bit step of the reflected CRC-32 (polynomial `0xEDB88320`), as
computed by `zlib.crc32`. -/
def crc32Bit (c : Nat) : Nat :=
  if c % 2 == 1 then (c / 2) ^^^ 0xEDB88320 else c / 2

/-- Eight bit steps, i.e. one byte of CRC-32 state update. -/
def crc32Byte (c : Nat) (b : Nat) : Nat :=
  crc32Bit (crc32Bit (crc32Bit (crc32Bit (crc32Bit (crc32Bit (crc32Bit (crc32Bit (c ^^^ b))))))))

/-- CRC-32 checksum of a byte sequence, exactly `zlib.crc32(bytes)`. -/
def crc32 (bs : List Nat) : Nat :=
  (bs.foldl crc32Byte 0xFFFFFFFF) ^^^ 0xFFFFFFFF

/-- Code point of the opening brace character. -/
def braceOpen : Char := Char.ofNat 123

/-- Code point of the closing brace character. -/
def braceClose : Char := Char.ofNat 125

/-- Character walker for `str.format`: brace-delimited auto-numbered
replacement fields are substituted from `args`, doubled braces escape, and
every other character — including printf-style `%s` placeholders, which
`str.format` does not interpret — is copied through verbatim. -/
def pyFormatAux (args : List String) : List Char → Nat → List Char
  | [], _ => []
  | c :: rest, i =>
    if c = braceOpen then
      match rest with
      | [] => [c]
      | c2 :: rest2 =>
        if c2 = braceClose then (args.getD i "").data ++ pyFormatAux args rest2 (i + 1)
        else if c2 = braceOpen then c :: pyFormatAux args rest2 i
        else c :: c2 :: pyFormatAux args rest2 i
    else c :: pyFormatAux args rest i

/-- Embedding of Python `str.format(fmt, *args)` for the format strings this
package uses: a format string with no replacement field is returned
unchanged, whatever the arguments. -/
def pyStrFormat (fmt : String) (args : List String) : String :=
  String.mk (pyFormatAux args fmt.data 0)

/-- Embedding of `models/user_event_action.py`: the `UserEventAction` enum. -/
inductive UserEventAction where
  | START_TRACKING
  | CLICK
  | CHANGE
  | SUBMIT
  | OTHER
deriving DecidableEq

/-- Embedding of `UserEventAction.value`: the string payload of each enum
member. -/
def UserEventAction.value : UserEventAction → String
  | .START_TRACKING => "start_tracking"
  | .CLICK => "click"
  | .CHANGE => "change"
  | .SUBMIT => "submit"
  | .OTHER => "other"

/-- Modelled from the spec: `models/widget_values.py` is not in the source
tree (only its importers are).  Per spec §3, an element's value state is
`{current: optional any, previous: optional any}`, both absent by default;
`Widget` constructs it as `WidgetValues(current=...)`, leaving `previous`
at its absent default. -/
structure WidgetValues where
  current : PyVal := PyVal.none
  previous : PyVal := PyVal.none

/-- Embedding of `models/widget.py`: the `Widget` dataclass.  `id` and
`label` hold whatever Python value extraction produced, so they are
embedded as `PyVal`. -/
structure Widget where
  id : PyVal := PyVal.str "unknown"
  type : String := "unknown"
  label : PyVal := PyVal.str "unknown"
  values : WidgetValues := {}
  extra : PyVal := PyVal.none

/-- Embedding of `Widget.update_value`: `previous` receives the old
`current`, `current` the new value. -/
def Widget.update_value (w : Widget) (new_value : PyVal) : Widget :=
  { w with values := { current := new_value, previous := w.values.current } }

/-- Embedding of `Widget.to_dict` (`dataclasses.asdict`): the nested
dictionary representation of the widget. -/
def Widget.to_dict (w : Widget) : PyVal :=
  PyVal.dict
    [("id", w.id),
     ("type", PyVal.str w.type),
     ("label", w.label),
     ("values", PyVal.dict
        [("current", w.values.current), ("previous", w.values.previous)]),
     ("extra", w.extra)]

/-- Embedding of `models/user_event.py`: the `UserEvent` dataclass.  The
`action` field is stored post-`__post_init__`, i.e. already normalised to
the enum (the string-input branch either maps to the same enum member or
raises `ValueError` before any instance exists). -/
structure UserEvent where
  session_id : Option String := Option.none
  user_id : Option String := Option.none
  page_name : Option String := Option.none
  action : UserEventAction := UserEventAction.OTHER
  widget : Option Widget := Option.none
  extra : PyVal := PyVal.none

/-- Embedding of `UserEvent.with_session_id`: copy the event
(`UserEvent(**self.__dict__)`) and overwrite `session_id`. -/
def UserEvent.with_session_id (e : UserEvent) (session_id : String) : UserEvent :=
  { e with session_id := some session_id }

/-- Embedding of `UserEvent.with_user_id`: copy the event and overwrite
`user_id`. -/
def UserEvent.with_user_id (e : UserEvent) (user_id : String) : UserEvent :=
  { e with user_id := some user_id }

/-- Embedding of `UserEvent.with_page_name`: copy the event and overwrite
`page_name` (an optional string in the source). -/
def UserEvent.with_page_name (e : UserEvent) (page_name : Option String) : UserEvent :=
  { e with page_name := page_name }

/-- Embedding of one `Optional[str]` field in `UserEvent.to_dict`. -/
def optStr : Option String → PyVal
  | some s => PyVal.str s
  | Option.none => PyVal.none

/-- Embedding of `UserEvent.to_dict`: the dictionary handed to
`json.dumps` after cleaning; `widget` is recursively converted, `extra`
is nulled out when falsy (`self.extra if self.extra else None`). -/
def UserEvent.to_dict (e : UserEvent) : PyVal :=
  PyVal.dict
    [("session_id", optStr e.session_id),
     ("user_id", optStr e.user_id),
     ("page_name", optStr e.page_name),
     ("action", PyVal.str e.action.value),
     ("widget", match e.widget with
                | some w => w.to_dict
                | Option.none => PyVal.none),
     ("extra", if pyTruthy e.extra then e.extra else PyVal.none)]

/-- Embedding of `models/widget_attribute.py`.  The dataclass annotates
`index : int`, but the extractor guards every use with
`attribute.index is not None`, so the field is embedded as an optional
(signed) integer. -/
structure WidgetAttribute where
  index : Option Int
  name : String
deriving DecidableEq

/-- Embedding of `models/widget_mapping.py`: one element recipe.  The
`extraction_attributes` dictionary is kept in insertion (declaration)
order. -/
structure WidgetMapping where
  st_widget_name : String
  extraction_attributes : List (String × WidgetAttribute)
  action_type : UserEventAction
  documentation_url : String := ""
deriving DecidableEq

/-- Embedding of `models/widget_mapping_key.py`: the dataclass key used by
the installation record. -/
structure WidgetMappingKey where
  container_name : String
  widget_name : String
deriving DecidableEq

/-- Embedding of `WidgetMappingKey.__eq__` (the same-type branch): both
fields are compared. -/
def WidgetMappingKey.eqFn (k other : WidgetMappingKey) : Bool :=
  k.container_name == other.container_name && k.widget_name == other.widget_name

/-- Embedding of `WidgetMappingKey.__hash__`:
`zlib.crc32(str(str.format("%s.%s", container_name, widget_name)).encode()) & 0xFFFFFFFF`. -/
def WidgetMappingKey.hashFn (k : WidgetMappingKey) : Nat :=
  (crc32 (strBytes (pyStrFormat "%s.%s" [k.container_name, k.widget_name]))) &&& 0xFFFFFFFF

/-- Embedding of `utils/clean_values.py`: `_check_if_empty_or_none`.  The
embedded `list` value stands for both Python lists and tuples, so the
`== []`/`== ()` comparisons collapse into one case. -/
def checkIfEmptyOrNone (v : PyVal) : Bool :=
  match v with
  | PyVal.none => true
  | PyVal.str s => s == "" || s == "[]" || s == "\x7b\x7d"
  | PyVal.list xs => xs.isEmpty
  | PyVal.dict es => es.isEmpty
  | _ => false

mutual

/-- Embedding of `utils/clean_values.py`: `clean_values` — dictionaries
drop entries whose raw value is empty or null and clean the surviving
values recursively; lists clean every element; everything else passes
through. -/
def clean_values : PyVal → PyVal
  | PyVal.dict es => PyVal.dict (cleanEntries es)
  | PyVal.list xs => PyVal.list (cleanList xs)
  | v => v

/-- Elementwise `clean_values` over a list value. -/
def cleanList : List PyVal → List PyVal
  | [] => []
  | v :: rest => clean_values v :: cleanList rest

/-- Entrywise `clean_values` over a dictionary's entries, dropping the
empty-or-null ones. -/
def cleanEntries : List (String × PyVal) → List (String × PyVal)
  | [] => []
  | (k, v) :: rest =>
    if checkIfEmptyOrNone v then cleanEntries rest
    else (k, clean_values v) :: cleanEntries rest

end

/-- Python `xs[i]` on a list with a signed index: non-negative indices read
from the front, negative indices from the back; `Option.none` stands for
`IndexError`. -/
def pyListGet (xs : List PyVal) (i : Int) : Option PyVal :=
  if 0 ≤ i then xs[i.toNat]?
  else if (-i) ≤ (xs.length : Int) then xs[xs.length - (-i).toNat]?
  else Option.none

/-- Python `del xs[i]` on a list with a signed index known to be in range. -/
def pyListDel (xs : List PyVal) (i : Int) : List PyVal :=
  if 0 ≤ i then xs.eraseIdx i.toNat
  else xs.eraseIdx (xs.length - (-i).toNat)

/-- Embedding of `WidgetAttributeExtractor.check_and_get_attribute` for one
attribute: the keyword argument is taken and removed when its name is
bound; otherwise a declared positional index is used when the list is
non-empty, `len(arguments) > index` holds, and the value there is not
`None` (indexing below `-len` raises `IndexError`, which the source does
not catch); otherwise the attribute resolves to `None`.  The result is the
extracted value together with the mutated argument collections. -/
def check_and_get_attribute (attr : WidgetAttribute) (arguments : List PyVal)
    (kwarguments : List (String × PyVal)) :
    Except String (PyVal × List PyVal × List (String × PyVal)) :=
  match kwLookup kwarguments attr.name with
  | some v => Except.ok (v, arguments, kwErase kwarguments attr.name)
  | Option.none =>
    match attr.index with
    | some i =>
      if arguments.isEmpty then Except.ok (PyVal.none, arguments, kwarguments)
      else if i < (arguments.length : Int) then
        match pyListGet arguments i with
        | some v =>
          if isPyNone v then Except.ok (PyVal.none, arguments, kwarguments)
          else Except.ok (v, pyListDel arguments i, kwarguments)
        | Option.none => Except.error "IndexError: list index out of range"
      else Except.ok (PyVal.none, arguments, kwarguments)
    | Option.none => Except.ok (PyVal.none, arguments, kwarguments)

/-- Embedding of `WidgetAttributeExtractor._extract_all_attributes`: the
dictionary comprehension runs `check_and_get_attribute` once per declared
attribute in declaration order, threading the mutated argument
collections, and collects the extracted values under their attribute
names. -/
def extractAllAttributes : List (String × WidgetAttribute) → List PyVal →
    List (String × PyVal) →
    Except String (List PyVal × List (String × PyVal) × List (String × PyVal))
  | [], arguments, kwarguments => Except.ok (arguments, kwarguments, [])
  | (attrName, attr) :: rest, arguments, kwarguments =>
    match check_and_get_attribute attr arguments kwarguments with
    | Except.error e => Except.error e
    | Except.ok (v, arguments', kwarguments') =>
      match extractAllAttributes rest arguments' kwarguments' with
      | Except.error e => Except.error e
      | Except.ok (rargs, rkwargs, extracted) =>
        Except.ok (rargs, rkwargs, (attrName, v) :: extracted)

/-- The module constant `_DEFAULT_ELEMENT_ID_PRE` + `FIX` from
`widget_attribute_extractor.py`, value `"pg-trk-"`. -/
def defaultElementIdLead : String := "pg-trk-"

/-- Python `str(v)` for the embedded values, as used when hashing a
non-string label. -/
def pyStrOf : PyVal → String
  | PyVal.none => "None"
  | PyVal.bool b => if b then "True" else "False"
  | PyVal.int n => toString n
  | PyVal.str s => s
  | PyVal.list _ => "[...]"
  | PyVal.dict _ => "\x7b...\x7d"
  | PyVal.callback t => "<function " ++ toString t ++ ">"

/-- Modelled from the spec: `utils/hashing.py` (`get_crc32_hash`) is not in
the source tree.  Per spec §4.2 the identity fallback is a 32-bit CRC over
the label string; the golden tests (`tests/test_widgets.py`, ids
`pg-trk-15113830` and `pg-trk-1613747494`) fix the rendering as the
unsigned decimal of `zlib.crc32(label.encode())`. -/
def get_crc32_hash (label : PyVal) : String :=
  toString (crc32 (strBytes (pyStrOf label)))

/-- Embedding of the widget-id expression in
`WidgetAttributeExtractor.extract_widget`:
`extracted["key"] or "" + _DEFAULT_ELEMENT_ID_PRE+FIX + get_crc32_hash(extracted["label"])`.
Python parses this as `key or ("" + lead + hash)`, so a falsy key (absent
or empty string) selects the checksum-based identifier. -/
def resolveWidgetId (key label : PyVal) : PyVal :=
  if pyTruthy key then key
  else PyVal.str ("" ++ defaultElementIdLead ++ get_crc32_hash label)

/-- Embedding of `models/extracted_widget.py`: the `ExtractedWidget`
dataclass. -/
structure ExtractedWidget where
  widget : Widget
  unextracted_args : List PyVal
  unextracted_kwargs : List (String × PyVal)
  original_action_callback_fn : PyVal := PyVal.none

/-- Embedding of `WidgetAttributeExtractor.extract_widget`: run the
extraction, resolve the widget id (`extracted["key"]` and
`extracted["label"]` raise `KeyError` when the recipe does not declare
them), and assemble the `Widget` (initial value from
`extracted.get("value", None)`, `previous` left at its absent default) and
the `ExtractedWidget` (callback from `extracted.get("action", None)`). -/
def extract_widget (widget_type : String)
    (extraction_attributes : List (String × WidgetAttribute))
    (arguments : List PyVal) (kwarguments : List (String × PyVal))
    (extra : PyVal) : Except String ExtractedWidget :=
  match extractAllAttributes extraction_attributes arguments kwarguments with
  | Except.error e => Except.error e
  | Except.ok (rargs, rkwargs, extracted) =>
    match kwLookup extracted "key", kwLookup extracted "label" with
    | some keyV, some labelV =>
      Except.ok
        { widget :=
            { id := resolveWidgetId keyV labelV,
              type := widget_type,
              label := labelV,
              values := { current := (kwLookup extracted "value").getD PyVal.none },
              extra := extra },
          unextracted_args := rargs,
          unextracted_kwargs := rkwargs,
          original_action_callback_fn := (kwLookup extracted "action").getD PyVal.none }
    | _, _ => Except.error "KeyError"

/-- Embedding of `config.py`: the `MAPPINGS` recipe table, transcribed
entry by entry in source order. -/
def MAPPINGS : List WidgetMapping :=
  [{ st_widget_name := "button",
     extraction_attributes :=
       [("label", { index := some 0, name := "label" }),
        ("key", { index := some 1, name := "key" }),
        ("action", { index := some 3, name := "on_click" })],
     action_type := UserEventAction.CLICK },
   { st_widget_name := "checkbox",
     extraction_attributes :=
       [("label", { index := some 0, name := "label" }),
        ("key", { index := some 2, name := "key" }),
        ("action", { index := some 4, name := "on_change" })],
     action_type := UserEventAction.CHANGE },
   { st_widget_name := "radio",
     extraction_attributes :=
       [("label", { index := some 0, name := "label" }),
        ("key", { index := some 4, name := "key" }),
        ("action", { index := some 6, name := "on_change" })],
     action_type := UserEventAction.CHANGE },
   { st_widget_name := "selectbox",
     extraction_attributes :=
       [("label", { index := some 0, name := "label" }),
        ("key", { index := some 4, name := "key" }),
        ("action", { index := some 6, name := "on_change" })],
     action_type := UserEventAction.CHANGE },
   { st_widget_name := "multiselect",
     extraction_attributes :=
       [("label", { index := some 0, name := "label" }),
        ("key", { index := some 4, name := "key" }),
        ("action", { index := some 6, name := "on_change" })],
     action_type := UserEventAction.CHANGE },
   { st_widget_name := "slider",
     extraction_attributes :=
       [("label", { index := some 0, name := "label" }),
        ("key", { index := some 6, name := "key" }),
        ("action", { index := some 8, name := "on_change" })],
     action_type := UserEventAction.CHANGE },
   { st_widget_name := "select_slider",
     extraction_attributes :=
       [("label", { index := some 0, name := "label" }),
        ("key", { index := some 4, name := "key" }),
        ("action", { index := some 6, name := "on_change" })],
     action_type := UserEventAction.CHANGE },
   { st_widget_name := "text_input",
     extraction_attributes :=
       [("label", { index := some 0, name := "label" }),
        ("key", { index := some 3, name := "key" }),
        ("action", { index := some 7, name := "on_change" })],
     action_type := UserEventAction.CHANGE },
   { st_widget_name := "number_input",
     extraction_attributes :=
       [("label", { index := some 0, name := "label" }),
        ("key", { index := some 6, name := "key" }),
        ("action", { index := some 8, name := "on_change" })],
     action_type := UserEventAction.CHANGE },
   { st_widget_name := "text_area",
     extraction_attributes :=
       [("label", { index := some 0, name := "label" }),
        ("key", { index := some 4, name := "key" }),
        ("action", { index := some 6, name := "on_change" })],
     action_type := UserEventAction.CHANGE },
   { st_widget_name := "date_input",
     extraction_attributes :=
       [("label", { index := some 0, name := "label" }),
        ("key", { index := some 4, name := "key" }),
        ("action", { index := some 6, name := "on_change" })],
     action_type := UserEventAction.CHANGE },
   { st_widget_name := "time_input",
     extraction_attributes :=
       [("label", { index := some 0, name := "label" }),
        ("key", { index := some 2, name := "key" }),
        ("action", { index := some 4, name := "on_change" })],
     action_type := UserEventAction.CHANGE },
   { st_widget_name := "file_uploader",
     extraction_attributes :=
       [("label", { index := some 0, name := "label" }),
        ("key", { index := some 3, name := "key" }),
        ("action", { index := some 5, name := "on_change" })],
     action_type := UserEventAction.CHANGE },
   { st_widget_name := "color_picker",
     extraction_attributes :=
       [("label", { index := some 0, name := "label" }),
        ("key", { index := some 2, name := "key" }),
        ("action", { index := some 4, name := "on_change" })],
     action_type := UserEventAction.CHANGE }]

/-- Call environment interpreting defunctionalised Python callables: the
tag of a `PyVal.callback` applied to positional and keyword arguments. -/
def CallEnv : Type := Nat → List PyVal → List (String × PyVal) → PyVal

/-- Python call of an arbitrary value: callables run through the
environment, anything else raises `TypeError`. -/
def pyCall (env : CallEnv) (f : PyVal) (args : List PyVal)
    (kwargs : List (String × PyVal)) : Except String PyVal :=
  match f with
  | PyVal.callback tag => Except.ok (env tag args kwargs)
  | _ => Except.error "TypeError: object is not callable"

/-- Python `container[key]` for the render-state snapshot: a dictionary
looks the string key up (`KeyError` when absent, and the embedding keys
dictionaries by strings, so a non-string widget id also misses); any other
container raises `TypeError`. -/
def pySubscript (container : PyVal) (key : PyVal) : Except String PyVal :=
  match container with
  | PyVal.dict es =>
    match key with
    | PyVal.str s =>
      match kwLookup es s with
      | some v => Except.ok v
      | Option.none => Except.error "KeyError"
    | _ => Except.error "KeyError"
  | _ => Except.error "TypeError: object is not subscriptable"

/-- The `_TEXT_INPUT_WIDGET_TYPES` frozenset of
`widgets/user_event_logger.py`. -/
def TEXT_INPUT_WIDGET_TYPES : List String := ["text_input", "text_area"]

/-- Embedding of `widgets/user_event_logger.py`: the `UserEventLogger`
state.  `logger_fn` and `session_state_fn` are optional in the source;
`has_logger_fn` records whether a forwarding function was supplied, and
`session_state` holds the snapshot `session_state_fn()` returns for the
invocation under consideration (`Option.none` when no reader is
configured).  The original developer callback is the extracted Python
value (a callable tag or `None`). -/
structure UserEventLogger where
  widget : Widget
  action_type : UserEventAction
  original_element_callback : PyVal := PyVal.none
  has_logger_fn : Bool := false
  session_state : Option PyVal := Option.none
  mask_text_input_values : Bool := false
  mask_all_values : Bool := false

/-- Embedding of the masking conditional inside
`UserEventLogger._extract_and_update_widget_value`: redact when `mask_all`
is set, or `mask_text_inputs` is set and the widget type is text-like. -/
def maskWidgetValue (lg : UserEventLogger) (v : PyVal) : PyVal :=
  if lg.mask_all_values
      || (lg.mask_text_input_values && TEXT_INPUT_WIDGET_TYPES.contains lg.widget.type)
  then PyVal.str "[REDACTED]"
  else v

/-- Embedding of `UserEventLogger._extract_and_update_widget_value`: on a
CHANGE action with a configured state reader, look the widget id up in the
snapshot; a non-`None` value is masked as configured and stored via
`update_value`; `KeyError`/`TypeError` are absorbed with a warning (the
returned flag) and the widget is left unchanged. -/
def extractAndUpdateWidgetValue (lg : UserEventLogger) : Widget × Bool :=
  if lg.action_type = UserEventAction.CHANGE then
    match lg.session_state with
    | some state =>
      match pySubscript state lg.widget.id with
      | Except.ok v =>
        if isPyNone v then (lg.widget, false)
        else (lg.widget.update_value (maskWidgetValue lg v), false)
      | Except.error _ => (lg.widget, true)
    | Option.none => (lg.widget, false)
  else (lg.widget, false)

/-- Embedding of `UserEventLogger.logging_callback_fn`: update the widget
value from render state, forward one `UserEvent` when a logger-forwarding
function is configured (raw call arguments under `extra`), then invoke the
original developer callback with the received arguments and return its
result (`None` when there is no callback).  The result triple is the
post-invocation widget, the list of forwarded events, and the returned
value. -/
def logging_callback_fn (env : CallEnv) (lg : UserEventLogger)
    (args : List PyVal) (kwargs : List (String × PyVal)) :
    Widget × List UserEvent × Except String PyVal :=
  let w := (extractAndUpdateWidgetValue lg).1
  let events : List UserEvent :=
    if lg.has_logger_fn then
      [{ action := lg.action_type,
         widget := some w,
         extra := PyVal.dict
           [("args", PyVal.list args), ("kwargs", PyVal.dict kwargs)] }]
    else []
  let result : Except String PyVal :=
    if isPyNone lg.original_element_callback then Except.ok PyVal.none
    else pyCall env lg.original_element_callback args kwargs
  (w, events, result)

/-- Arguments of the reconstructed host call made by
`WrappedWidget.wrapped_widget_fn`: either a plain Python value, or the
bound `logging_callback_fn` of the `UserEventLogger` the wrapper just
constructed. -/
inductive CallArg where
  | val (v : PyVal)
  | loggerCallback (lg : UserEventLogger)

/-- Embedding of `widgets/wrapped_widget.py`: the `WrappedWidget` state.
As with the logger, `session_state` is the snapshot the configured reader
returns, and `has_event_logger_fn` records that a forwarding function was
wired in (`StreamlitPageAnalytics` always passes its own `log_event`). -/
structure WrappedWidget where
  widget_mapping : WidgetMapping
  has_event_logger_fn : Bool := true
  session_state : Option PyVal := Option.none

/-- The `UserEventLogger` literal constructed inside
`WrappedWidget.wrapped_widget_fn`: bound to the freshly extracted widget
and the recipe's action type, with the extracted developer callback; this
source version passes no masking flags, so both default to `False`. -/
def wrapLoggerOf (ww : WrappedWidget) (ew : ExtractedWidget) : UserEventLogger :=
  { widget := ew.widget,
    action_type := ww.widget_mapping.action_type,
    original_element_callback := ew.original_action_callback_fn,
    has_logger_fn := ww.has_event_logger_fn,
    session_state := ww.session_state }

/-- Embedding of `WrappedWidget.wrapped_widget_fn`, parametric in the
underlying host function: extract the recipe's attributes (with `extra`
the cleaned copies of the raw call arguments), prepend the label to the
surviving positional arguments, force `key` to the resolved widget id,
substitute the logger's callback for the recipe's action keyword when one
is declared, and return whatever the underlying function returns on the
reconstructed arguments. -/
def wrapped_widget_fn (ww : WrappedWidget)
    (widgetFn : List CallArg → List (String × CallArg) → PyVal)
    (args : List PyVal) (kwargs : List (String × PyVal)) :
    Except String PyVal :=
  match extract_widget ww.widget_mapping.st_widget_name
      ww.widget_mapping.extraction_attributes args kwargs
      (PyVal.dict
        [("args", clean_values (PyVal.list args)),
         ("kwargs", clean_values (PyVal.dict kwargs))]) with
  | Except.error e => Except.error e
  | Except.ok ew =>
    let args_to_use : List CallArg :=
      CallArg.val ew.widget.label :: ew.unextracted_args.map CallArg.val
    let kwargs_base : List (String × CallArg) :=
      ew.unextracted_kwargs.map (fun p => (p.1, CallArg.val p.2))
    let kwargs_keyed := kwSet kwargs_base "key" (CallArg.val ew.widget.id)
    let kwargs_to_use :=
      match kwLookup ww.widget_mapping.extraction_attributes "action" with
      | some actionAttr =>
        kwSet kwargs_keyed actionAttr.name
          (CallArg.loggerCallback (wrapLoggerOf ww ew))
      | Option.none => kwargs_keyed
    Except.ok (widgetFn args_to_use kwargs_to_use)

/-- The `__module__` marker carried by the wrapper functions installed by
`_wrap_st_functions`. -/
def wrappedWidgetModule : String := "streamlit_page_analytics.widgets.wrapped_widget"

/-- A host (Streamlit) function attribute: its defining module and an
identity tag distinguishing distinct function objects. -/
structure HostFn where
  module : String
  tag : Nat
deriving DecidableEq

/-- Keyword parameters accepted by `WrappedWidget.__init__` in
`widgets/wrapped_widget.py` (besides `self`; the signature declares no
`**kwargs`). -/
def wrappedWidgetInitKeywordParams : List String :=
  ["widget_mapping", "widget_fn", "event_logger_fn", "session_state_fn"]

/-- Keywords supplied at the `WrappedWidget(...)` construction site inside
`StreamlitPageAnalytics._wrap_st_functions`. -/
def wrapSiteCallKeywords : List String :=
  ["widget_mapping", "widget_fn", "event_logger_fn", "session_state_fn",
   "mask_text_input_values"]

/-- Python keyword binding for the `WrappedWidget(...)` construction call:
a supplied keyword that no parameter accepts raises `TypeError`. -/
def constructWrappedWidgetCall : Except String Unit :=
  match wrapSiteCallKeywords.find?
      (fun k => !(wrappedWidgetInitKeywordParams.contains k)) with
  | some k =>
    Except.error ("TypeError: __init__() got an unexpected keyword argument " ++ k)
  | Option.none => Except.ok ()

/-- State touched by `_wrap_st_functions` / `unwrap_st_functions`: the two
host namespaces' function tables and the instance's
`_original_mappings`. -/
structure HostState where
  st : List (String × HostFn)
  sidebar : List (String × HostFn)
  original_mappings : List (WidgetMappingKey × HostFn)
deriving DecidableEq

/-- One container step of `_wrap_st_functions` for one mapping: skip absent
names (`hasattr`), skip functions whose `__module__` is the wrapper's own
(the re-wrap guard), otherwise construct the `WrappedWidget` — whose
keyword binding decides whether the step succeeds — record the original,
and install the wrapper (tagged 0; wrapper identity is not compared by the
source). -/
def wrapInContainer (fns : List (String × HostFn)) (container_name : String)
    (m : WidgetMapping) (orig : List (WidgetMappingKey × HostFn)) :
    Except String (List (String × HostFn) × List (WidgetMappingKey × HostFn)) :=
  match kwLookup fns m.st_widget_name with
  | Option.none => Except.ok (fns, orig)
  | some fn =>
    if fn.module == wrappedWidgetModule then Except.ok (fns, orig)
    else
      match constructWrappedWidgetCall with
      | Except.error e => Except.error e
      | Except.ok _ =>
        Except.ok
          (kwSet fns m.st_widget_name { module := wrappedWidgetModule, tag := 0 },
           kwSet orig { container_name := container_name,
                        widget_name := m.st_widget_name } fn)

/-- Recursion of `_wrap_st_functions` over the mapping table: each mapping
is processed for `st` and then for `st.sidebar`. -/
def wrapStGo : List WidgetMapping → HostState → Except String HostState
  | [], s => Except.ok s
  | m :: rest, s =>
    match wrapInContainer s.st "st" m s.original_mappings with
    | Except.error e => Except.error e
    | Except.ok (st', orig') =>
      match wrapInContainer s.sidebar "st.sidebar" m orig' with
      | Except.error e => Except.error e
      | Except.ok (sb', orig'') =>
        wrapStGo rest { st := st', sidebar := sb', original_mappings := orig'' }

/-- Embedding of `StreamlitPageAnalytics._wrap_st_functions` (the body of
`start_tracking` in this source version): wrap every configured mapping in
both containers. -/
def wrap_st_functions (s : HostState) : Except String HostState :=
  wrapStGo MAPPINGS s

/-- Embedding of `StreamlitPageAnalytics.unwrap_st_functions`: restore each
recorded original onto its container and clear the record. -/
def unwrap_st_functions (s : HostState) : HostState :=
  { st := s.original_mappings.foldl
      (fun fns p => if p.1.container_name == "st" then kwSet fns p.1.widget_name p.2 else fns)
      s.st,
    sidebar := s.original_mappings.foldl
      (fun fns p => if p.1.container_name == "st.sidebar" then kwSet fns p.1.widget_name p.2 else fns)
      s.sidebar,
    original_mappings := [] }

/-- A concrete pre-installation host: every configured widget name bound in
both namespaces to a distinct original function defined by the host's own
module. -/
def initialHost : HostState :=
  { st := (MAPPINGS.enum.map
      (fun p => (p.2.st_widget_name, ({ module := "streamlit", tag := p.1 } : HostFn)))),
    sidebar := (MAPPINGS.enum.map
      (fun p => (p.2.st_widget_name, ({ module := "streamlit", tag := 100 + p.1 } : HostFn)))),
    original_mappings := [] }

/-- Modelled from the spec: the page-tracking branch of
`start_tracking(page_name)` (spec §4.5, §8) is absent from the source
tree's `streamlit_page_analytics.py`, whose `start_tracking` takes no
argument — only `tests/test_page_tracking.py` exercises it.  Per the spec,
a single START_TRACKING-kind event is emitted exactly when `page_name` is
non-empty and differs (case-sensitively) from
`PageTrackingState.last_logged_page_name`, which is then updated; an
empty or absent page name neither emits nor updates. -/
def pageTrackStep (last_logged_page_name : Option String)
    (page_name : Option String) : Option String × List (UserEventAction × String) :=
  match page_name with
  | some p =>
    if p ≠ "" ∧ some p ≠ last_logged_page_name then
      (some p, [(UserEventAction.START_TRACKING, p)])
    else (last_logged_page_name, [])
  | Option.none => (last_logged_page_name, [])

/-- Modelled from the spec: a sequence of `start_tracking(page_name)` calls
starting from fresh page-tracking state, collecting the emitted
page-track events in order. -/
def runStartTracking (calls : List (Option String)) :
    Option String × List (UserEventAction × String) :=
  calls.foldl
    (fun acc pn =>
      let step := pageTrackStep acc.1 pn
      (step.1, acc.2 ++ step.2))
    (Option.none, [])

/-- Embedding of the record built by `StreamlitPageAnalytics.log_event`:
the event enriched with the instance's session and user ids, serialised
via `clean_values(event.to_dict())` (the argument `json.dumps` receives). -/
def logEventRecord (session_id user_id : String) (e : UserEvent) : PyVal :=
  clean_values (((e.with_session_id session_id).with_user_id user_id).to_dict)

/-- Lookup in the installation record as a Python dictionary performs it:
probe by hash, then discriminate by `__eq__`. -/
def dictFind {α : Type} (m : List (WidgetMappingKey × α)) (k : WidgetMappingKey) :
    Option α :=
  (m.find? (fun p => p.1.hashFn == k.hashFn && WidgetMappingKey.eqFn p.1 k)).map Prod.snd

/-- Reference lookup in the installation record by `__eq__` alone. -/
def findByEq {α : Type} (m : List (WidgetMappingKey × α)) (k : WidgetMappingKey) :
    Option α :=
  (m.find? (fun p => WidgetMappingKey.eqFn p.1 k)).map Prod.snd

/-- Lookup of a key inside a serialised (dictionary) record. -/
def recordLookup (record : PyVal) (k : String) : Option PyVal :=
  match record with
  | PyVal.dict es => kwLookup es k
  | _ => Option.none

/-- Boolean check that a declared positional index, when present, is
non-negative (every recipe in `MAPPINGS` satisfies it). -/
def attrIdxNonneg (a : WidgetAttribute) : Bool :=
  match a.index with
  | some i => decide (0 ≤ i)
  | Option.none => true

theorem kwLookup_cons {κ α : Type} [BEq κ] (p : κ × α) (rest : List (κ × α)) (n : κ) :
    kwLookup (p :: rest) n = if p.1 == n then some p.2 else kwLookup rest n := by
  by_cases h : p.1 == n <;> simp [kwLookup, List.find?_cons, h]

theorem kwLookup_kwErase_ne {κ α : Type} [BEq κ] [LawfulBEq κ]
    (es : List (κ × α)) (k n : κ) (h : n ≠ k) :
    kwLookup (kwErase es k) n = kwLookup es n := by
  induction es with
  | nil => rfl
  | cons p rest ih =>
    by_cases hpk : p.1 = k
    · have h1 : (p.1 != k) = false := by simp [hpk]
      have h2 : (p.1 == n) = false := by simp [hpk]; exact fun hrw => (h hrw.symm).elim
      simp [kwErase, List.filter_cons, h1, kwLookup_cons, h2] at *
      exact ih
    · have h1 : (p.1 != k) = true := by simp [hpk]
      simp only [kwErase, List.filter_cons, h1, if_true]
      simp only [kwLookup_cons]
      by_cases hpn : p.1 == n
      · simp [hpn]
      · simp only [hpn, if_neg, Bool.false_eq_true, if_false]
        exact ih

theorem kwLookup_replace_self {κ α : Type} [BEq κ] [LawfulBEq κ]
    (es : List (κ × α)) (k : κ) (v : α) (h : es.any (fun p => p.1 == k)) :
    kwLookup (es.map (fun p => if p.1 == k then (k, v) else p)) k = some v := by
  induction es with
  | nil => simp at h
  | cons p rest ih =>
    by_cases hpk : p.1 == k
    · simp [hpk, kwLookup_cons]
    · have hr : rest.any (fun p => p.1 == k) := by
        simp only [List.any_cons, hpk, Bool.false_or] at h
        exact h
      simp only [List.map_cons, hpk, Bool.false_eq_true, if_false, kwLookup_cons]
      simp [hpk, ih hr]

theorem kwLookup_replace_ne {κ α : Type} [BEq κ] [LawfulBEq κ]
    (es : List (κ × α)) (k n : κ) (v : α) (h : n ≠ k) :
    kwLookup (es.map (fun p => if p.1 == k then (k, v) else p)) n = kwLookup es n := by
  induction es with
  | nil => rfl
  | cons p rest ih =>
    by_cases hpk : p.1 == k
    · have hkn : (k == n) = false := by
        simp only [beq_eq_false_iff_ne]
        exact fun hrw => h hrw.symm
      have hpn : (p.1 == n) = false := by
        simp only [beq_eq_false_iff_ne]
        intro hrw
        exact h (hrw.symm.trans (by simpa using hpk))
      simp [hpk, kwLookup_cons, hkn, hpn, ih]
    · simp only [List.map_cons, hpk, Bool.false_eq_true, if_false, kwLookup_cons]
      by_cases hpn : p.1 == n
      · simp [hpn]
      · simp [hpn, ih]

theorem kwLookup_append_last_self {κ α : Type} [BEq κ] [LawfulBEq κ]
    (es : List (κ × α)) (k : κ) (v : α) (h : ¬es.any (fun p => p.1 == k)) :
    kwLookup (es ++ [(k, v)]) k = some v := by
  induction es with
  | nil => simp [kwLookup_cons, kwLookup]
  | cons p rest ih =>
    have hpk : (p.1 == k) = false := by
      by_contra hc
      exact h (List.any_eq_true.mpr ⟨p, List.mem_cons_self p rest, by simpa using hc⟩)
    have hr : ¬rest.any (fun p => p.1 == k) := by
      intro hc
      rcases List.any_eq_true.mp hc with ⟨q, hq, hqk⟩
      exact h (List.any_eq_true.mpr ⟨q, List.mem_cons_of_mem _ hq, hqk⟩)
    simp [kwLookup_cons, hpk, ih hr]

theorem kwLookup_append_last_ne {κ α : Type} [BEq κ] [LawfulBEq κ]
    (es : List (κ × α)) (k n : κ) (v : α) (h : n ≠ k) :
    kwLookup (es ++ [(k, v)]) n = kwLookup es n := by
  induction es with
  | nil =>
    have hkn : (k == n) = false := by
      simp only [beq_eq_false_iff_ne]
      exact fun hrw => h hrw.symm
    simp [kwLookup_cons, hkn, kwLookup]
  | cons p rest ih =>
    by_cases hpn : p.1 == n
    · simp [kwLookup_cons, hpn]
    · simp [kwLookup_cons, hpn, ih]

theorem kwLookup_kwSet_self {κ α : Type} [BEq κ] [LawfulBEq κ]
    (es : List (κ × α)) (k : κ) (v : α) :
    kwLookup (kwSet es k v) k = some v := by
  by_cases hmem : es.any (fun p => p.1 == k)
  · simp only [kwSet, hmem, if_true]
    exact kwLookup_replace_self es k v hmem
  · simp only [kwSet, hmem, if_false]
    exact kwLookup_append_last_self es k v hmem

theorem kwLookup_kwSet_ne {κ α : Type} [BEq κ] [LawfulBEq κ]
    (es : List (κ × α)) (k n : κ) (v : α) (h : n ≠ k) :
    kwLookup (kwSet es k v) n = kwLookup es n := by
  by_cases hmem : es.any (fun p => p.1 == k)
  · simp only [kwSet, hmem, if_true]
    exact kwLookup_replace_ne es k n v h
  · simp only [kwSet, hmem, if_false]
    exact kwLookup_append_last_ne es k n v h

theorem kwLookup_map_val {κ α β : Type} [BEq κ]
    (es : List (κ × α)) (f : α → β) (n : κ) :
    kwLookup (es.map (fun p => (p.1, f p.2))) n = (kwLookup es n).map f := by
  induction es with
  | nil => rfl
  | cons p rest ih =>
    by_cases hpn : p.1 == n
    · simp [kwLookup_cons, hpn]
    · simp [kwLookup_cons, hpn, ih]

theorem kwLookup_isSome_of_mem {κ α : Type} [BEq κ] [LawfulBEq κ]
    (es : List (κ × α)) (k : κ) (h : k ∈ es.map Prod.fst) :
    ∃ v, kwLookup es k = some v := by
  induction es with
  | nil => simp at h
  | cons p rest ih =>
    by_cases hpk : p.1 == k
    · exact ⟨p.2, by simp [kwLookup_cons, hpk]⟩
    · have : k ∈ rest.map Prod.fst := by
        simp only [List.map_cons, List.mem_cons] at h
        rcases h with h | h
        · exact absurd (by simp [h]) hpk
        · exact h
      rcases ih this with ⟨v, hv⟩
      exact ⟨v, by simp [kwLookup_cons, hpk, hv]⟩

theorem kwLookup_eq_none_of_not_mem {κ α : Type} [BEq κ] [LawfulBEq κ]
    (es : List (κ × α)) (k : κ) (h : k ∉ es.map Prod.fst) :
    kwLookup es k = Option.none := by
  induction es with
  | nil => rfl
  | cons p rest ih =>
    have hpk : (p.1 == k) = false := by
      simp only [beq_eq_false_iff_ne]
      intro hrw
      exact h (by simp [hrw])
    have : k ∉ rest.map Prod.fst := fun hc => h (by simp [hc])
    simp [kwLookup_cons, hpk, ih this]

theorem kwLookup_mem_of_eq_some {κ α : Type} [BEq κ] [LawfulBEq κ]
    (es : List (κ × α)) (k : κ) (v : α) (h : kwLookup es k = some v) :
    (k, v) ∈ es := by
  induction es with
  | nil => simp [kwLookup] at h
  | cons p rest ih =>
    by_cases hpk : p.1 == k
    · simp only [kwLookup_cons, hpk, if_true] at h
      have hk : p.1 = k := by simpa using hpk
      have : p = (k, v) := by
        cases p
        simp only at hk
        simp only [Option.some.injEq] at h
        simp [hk, h]
      simp [← this]
    · simp only [kwLookup_cons, hpk, Bool.false_eq_true, if_false] at h
      exact List.mem_cons_of_mem _ (ih h)

theorem kwLookup_cleanEntries_none (es : List (String × PyVal)) (k : String)
    (h : kwLookup es k = Option.none) :
    kwLookup (cleanEntries es) k = Option.none := by
  induction es with
  | nil => rfl
  | cons p rest ih =>
    rcases p with ⟨k', v⟩
    rw [kwLookup_cons] at h
    by_cases hpk : (k' == k)
    · simp [hpk] at h
    · simp only at hpk
      simp only [hpk, Bool.false_eq_true, if_false] at h
      rw [cleanEntries]
      by_cases he : checkIfEmptyOrNone v
      · simp only [he, if_true]
        exact ih h
      · simp only [he, Bool.false_eq_true, if_false, kwLookup_cons, hpk]
        exact ih h

theorem kwLookup_cleanEntries (es : List (String × PyVal)) (k : String)
    (hnd : (es.map Prod.fst).Nodup) :
    kwLookup (cleanEntries es) k =
      (kwLookup es k).bind
        (fun v => if checkIfEmptyOrNone v then Option.none else some (clean_values v)) := by
  induction es with
  | nil => rfl
  | cons p rest ih =>
    rcases p with ⟨k', v⟩
    simp only [List.map_cons, List.nodup_cons] at hnd
    rcases hnd with ⟨hk', hrest⟩
    rw [cleanEntries]
    by_cases hpk : (k' == k)
    · have hkk : k' = k := by simpa using hpk
      by_cases he : checkIfEmptyOrNone v
      · simp only [he, if_true]
        have hnone : kwLookup rest k = Option.none := by
          apply kwLookup_eq_none_of_not_mem
          rw [← hkk]
          exact hk'
        rw [kwLookup_cleanEntries_none rest k hnone]
        simp [kwLookup_cons, hpk, he]
      · simp [kwLookup_cons, hpk, he]
    · simp only at hpk
      simp only [Bool.not_eq_true] at hpk
      by_cases he : checkIfEmptyOrNone v
      · simp only [he, if_true]
        rw [ih hrest]
        simp [kwLookup_cons, hpk]
      · simp only [he, Bool.false_eq_true, if_false, kwLookup_cons, hpk]
        exact ih hrest

theorem check_and_get_props (attr : WidgetAttribute) (args : List PyVal)
    (kwargs : List (String × PyVal))
    (hnn : ∀ i, attr.index = some i → 0 ≤ i) :
    ∃ v args' kwargs',
      check_and_get_attribute attr args kwargs = Except.ok (v, args', kwargs') ∧
      args'.Sublist args ∧
      args.length ≤ args'.length + 1 ∧
      (∀ n, n ≠ attr.name → kwLookup kwargs' n = kwLookup kwargs n) := by
  rcases hkw : kwLookup kwargs attr.name with _ | v
  · rcases hidx : attr.index with _ | i
    · refine ⟨PyVal.none, args, kwargs, ?_, List.Sublist.refl args, Nat.le_succ _,
        fun n _ => rfl⟩
      simp [check_and_get_attribute, hkw, hidx]
    · have h0 : 0 ≤ i := hnn i hidx
      by_cases he : args.isEmpty
      · refine ⟨PyVal.none, args, kwargs, ?_, List.Sublist.refl args, Nat.le_succ _,
          fun n _ => rfl⟩
        simp [check_and_get_attribute, hkw, hidx, he]
      · by_cases hlt : i < (args.length : Int)
        · have hnat : i.toNat < args.length := by omega
          have hget : pyListGet args i = some args[i.toNat] := by
            simp [pyListGet, h0, List.getElem?_eq_getElem hnat]
          by_cases hnone : isPyNone args[i.toNat]
          · refine ⟨PyVal.none, args, kwargs, ?_, List.Sublist.refl args, Nat.le_succ _,
              fun n _ => rfl⟩
            simp [check_and_get_attribute, hkw, hidx, he, hlt, hget, hnone]
          · have hdel : pyListDel args i = args.eraseIdx i.toNat := by
              simp [pyListDel, h0]
            refine ⟨args[i.toNat], args.eraseIdx i.toNat, kwargs, ?_, ?_, ?_,
              fun n _ => rfl⟩
            · simp [check_and_get_attribute, hkw, hidx, he, hlt, hget, hnone, hdel]
            · exact List.eraseIdx_sublist args i.toNat
            · rw [List.length_eraseIdx]
              simp only [hnat, if_true]
              omega
        · refine ⟨PyVal.none, args, kwargs, ?_, List.Sublist.refl args, Nat.le_succ _,
            fun n _ => rfl⟩
          simp [check_and_get_attribute, hkw, hidx, he, hlt]
  · refine ⟨v, args, kwErase kwargs attr.name, ?_, List.Sublist.refl args, Nat.le_succ _,
      fun n hn => kwLookup_kwErase_ne kwargs attr.name n hn⟩
    simp [check_and_get_attribute, hkw]

theorem extractAll_props (attrs : List (String × WidgetAttribute)) (args : List PyVal)
    (kwargs : List (String × PyVal))
    (hnn : ∀ p ∈ attrs, ∀ i, p.2.index = some i → 0 ≤ i) :
    ∃ rargs rkwargs ex,
      extractAllAttributes attrs args kwargs = Except.ok (rargs, rkwargs, ex) ∧
      rargs.Sublist args ∧
      args.length ≤ rargs.length + attrs.length ∧
      (∀ n, (∀ p ∈ attrs, p.2.name ≠ n) → kwLookup rkwargs n = kwLookup kwargs n) ∧
      ex.map Prod.fst = attrs.map Prod.fst := by
  induction attrs generalizing args kwargs with
  | nil =>
    exact ⟨args, kwargs, [], rfl, List.Sublist.refl args, Nat.le_refl _,
      fun n _ => rfl, rfl⟩
  | cons p rest ih =>
    rcases p with ⟨nm, attr⟩
    have hhead : ∀ i, attr.index = some i → 0 ≤ i :=
      hnn (nm, attr) (List.mem_cons_self _ _)
    rcases check_and_get_props attr args kwargs hhead with
      ⟨v, args', kwargs', hstep, hsub, hlen, hkw⟩
    have hrest : ∀ p ∈ rest, ∀ i, p.2.index = some i → 0 ≤ i :=
      fun p hp => hnn p (List.mem_cons_of_mem _ hp)
    rcases ih args' kwargs' hrest with
      ⟨rargs, rkwargs, ex, heq, hsub', hlen', hkw', hmap⟩
    refine ⟨rargs, rkwargs, (nm, v) :: ex, ?_, hsub'.trans hsub, by
      simp only [List.length_cons]
      omega, ?_, by simp [hmap]⟩
    · simp [extractAllAttributes, hstep, heq]
    · intro n hn
      have h1 : attr.name ≠ n := hn (nm, attr) (List.mem_cons_self _ _)
      have h2 : ∀ p ∈ rest, p.2.name ≠ n := fun p hp => hn p (List.mem_cons_of_mem _ hp)
      rw [hkw' n h2, hkw n (fun hrw => h1 hrw.symm)]

theorem extract_widget_props (widget_type : String)
    (attrs : List (String × WidgetAttribute)) (args : List PyVal)
    (kwargs : List (String × PyVal)) (extra : PyVal)
    (hnn : ∀ p ∈ attrs, ∀ i, p.2.index = some i → 0 ≤ i)
    (hlabel : "label" ∈ attrs.map Prod.fst) (hkey : "key" ∈ attrs.map Prod.fst) :
    ∃ ew, extract_widget widget_type attrs args kwargs extra = Except.ok ew ∧
      ew.widget.values.previous = PyVal.none ∧
      ("value" ∉ attrs.map Prod.fst → ew.widget.values.current = PyVal.none) ∧
      ew.unextracted_args.Sublist args ∧
      args.length ≤ ew.unextracted_args.length + attrs.length ∧
      (∀ n, (∀ p ∈ attrs, p.2.name ≠ n) →
        kwLookup ew.unextracted_kwargs n = kwLookup kwargs n) ∧
      ew.widget.type = widget_type ∧
      ew.widget.extra = extra := by
  rcases extractAll_props attrs args kwargs hnn with
    ⟨rargs, rkwargs, ex, heq, hsub, hlen, hkw, hmap⟩
  rcases kwLookup_isSome_of_mem ex "key" (by rw [hmap]; exact hkey) with ⟨keyV, hkeyV⟩
  rcases kwLookup_isSome_of_mem ex "label" (by rw [hmap]; exact hlabel) with ⟨labelV, hlabelV⟩
  have hok : extract_widget widget_type attrs args kwargs extra =
      Except.ok
        { widget :=
            { id := resolveWidgetId keyV labelV,
              type := widget_type,
              label := labelV,
              values := { current := (kwLookup ex "value").getD PyVal.none },
              extra := extra },
          unextracted_args := rargs,
          unextracted_kwargs := rkwargs,
          original_action_callback_fn := (kwLookup ex "action").getD PyVal.none } := by
    simp [extract_widget, heq, hkeyV, hlabelV]
  refine ⟨_, hok, rfl, ?_, hsub, hlen, hkw, rfl, rfl⟩
  intro hval
  have hv : kwLookup ex "value" = Option.none := by
    apply kwLookup_eq_none_of_not_mem
    rw [hmap]
    exact hval
  simp [hv]

theorem extractAndUpdate_cases (lg : UserEventLogger) :
    (extractAndUpdateWidgetValue lg).1 = lg.widget ∨
    ∃ v, (extractAndUpdateWidgetValue lg).1 =
      lg.widget.update_value (maskWidgetValue lg v) := by
  by_cases hact : lg.action_type = UserEventAction.CHANGE
  · rcases hss : lg.session_state with _ | state
    · left
      unfold extractAndUpdateWidgetValue
      simp [hact, hss]
    · rcases hps : pySubscript state lg.widget.id with err | v
      · left
        unfold extractAndUpdateWidgetValue
        simp [hact, hss, hps]
      · by_cases hv : isPyNone v
        · left
          unfold extractAndUpdateWidgetValue
          simp [hact, hss, hps, hv]
        · right
          refine ⟨v, ?_⟩
          unfold extractAndUpdateWidgetValue
          simp [hact, hss, hps, hv]
  · left
    unfold extractAndUpdateWidgetValue
    simp [hact]

theorem pyStrFormat_no_fields (args : List String) :
    pyStrFormat "%s.%s" args = "%s.%s" := rfl

theorem hashFn_const (k : WidgetMappingKey) :
    k.hashFn = (crc32 (strBytes "%s.%s")) &&& 0xFFFFFFFF := by
  unfold WidgetMappingKey.hashFn
  rw [pyStrFormat_no_fields]

theorem find?_and_of_true {β : Type} (l : List β) (f g : β → Bool)
    (hf : ∀ x, f x = true) :
    l.find? (fun x => f x && g x) = l.find? g := by
  induction l with
  | nil => rfl
  | cons x rest ih =>
    by_cases hg : g x
    · rw [List.find?_cons_of_pos _ (by rw [hf x, hg]; rfl),
        List.find?_cons_of_pos _ hg]
    · have hg' : g x = false := by simpa using hg
      rw [List.find?_cons_of_neg _ (by rw [hf x, hg']; exact (by decide)),
        List.find?_cons_of_neg _ (by rw [hg']; exact (by decide)), ih]

theorem dictFind_eq_findByEq {α : Type} (m : List (WidgetMappingKey × α))
    (k : WidgetMappingKey) : dictFind m k = findByEq m k := by
  have hf : ∀ x : WidgetMappingKey × α, (x.1.hashFn == k.hashFn) = true := by
    intro x
    simp only [beq_iff_eq]
    rw [hashFn_const x.1, hashFn_const k]
  exact congrArg (Option.map Prod.snd)
    (find?_and_of_true m (fun p => p.1.hashFn == k.hashFn)
      (fun p => WidgetMappingKey.eqFn p.1 k) hf)

/-- C9: for any two `WidgetMappingKey` instances the `__hash__` values
coincide — the hash is the constant CRC-32 of the literal string
`"%s.%s"` masked to 32 bits, because `str.format` ignores printf-style
placeholders and never interpolates the fields — while `__eq__` still
compares both fields, so equal keys have equal hashes and a
hash-then-equality lookup on the installation record agrees with lookup by
equality alone (all entries share the one hash bucket). -/
theorem C9_constant_hash (k1 k2 : WidgetMappingKey) :
    k1.hashFn = k2.hashFn ∧
    k1.hashFn = (crc32 (strBytes "%s.%s")) &&& 0xFFFFFFFF ∧
    (WidgetMappingKey.eqFn k1 k2 = true ↔
      (k1.container_name = k2.container_name ∧ k1.widget_name = k2.widget_name)) ∧
    (∀ (m : List (WidgetMappingKey × HostFn)), dictFind m k1 = findByEq m k1) := by
  refine ⟨?_, hashFn_const k1, ?_, fun m => dictFind_eq_findByEq m k1⟩
  · rw [hashFn_const k1, hashFn_const k2]
  · simp [WidgetMappingKey.eqFn]

/-- Closed instance of `C9_constant_hash`: the hashes of the two
installation-record keys actually used by the controller coincide, and the
hash-bucket lookup agrees with equality lookup on a concrete record. -/
theorem C9_constant_hash_witness :
    WidgetMappingKey.hashFn { container_name := "st", widget_name := "button" } =
      WidgetMappingKey.hashFn { container_name := "st.sidebar", widget_name := "slider" } ∧
    dictFind [({ container_name := "st", widget_name := "button" },
        ({ module := "streamlit", tag := 7 } : HostFn))]
      { container_name := "st", widget_name := "button" } =
      findByEq [({ container_name := "st", widget_name := "button" },
        ({ module := "streamlit", tag := 7 } : HostFn))]
      { container_name := "st", widget_name := "button" } :=
  ⟨(C9_constant_hash { container_name := "st", widget_name := "button" }
      { container_name := "st.sidebar", widget_name := "slider" }).1,
   (C9_constant_hash { container_name := "st", widget_name := "button" }
      { container_name := "st.sidebar", widget_name := "slider" }).2.2.2 _⟩

/-- C10: each `with_*` builder returns a new `UserEvent` whose targeted
field holds the given value and whose every other field equals the
corresponding field of the receiver; the receiver itself is unchanged (the
source copies `self.__dict__` into a fresh dataclass, and the embedding is
pure, so `e` is never mutated). -/
theorem C10_with_builders_frame (e : UserEvent) (s u : String) (p : Option String) :
    ((e.with_session_id s).session_id = some s ∧
     (e.with_session_id s).user_id = e.user_id ∧
     (e.with_session_id s).page_name = e.page_name ∧
     (e.with_session_id s).action = e.action ∧
     (e.with_session_id s).widget = e.widget ∧
     (e.with_session_id s).extra = e.extra) ∧
    ((e.with_user_id u).user_id = some u ∧
     (e.with_user_id u).session_id = e.session_id ∧
     (e.with_user_id u).page_name = e.page_name ∧
     (e.with_user_id u).action = e.action ∧
     (e.with_user_id u).widget = e.widget ∧
     (e.with_user_id u).extra = e.extra) ∧
    ((e.with_page_name p).page_name = p ∧
     (e.with_page_name p).session_id = e.session_id ∧
     (e.with_page_name p).user_id = e.user_id ∧
     (e.with_page_name p).action = e.action ∧
     (e.with_page_name p).widget = e.widget ∧
     (e.with_page_name p).extra = e.extra) :=
  ⟨⟨rfl, rfl, rfl, rfl, rfl, rfl⟩,
   ⟨rfl, rfl, rfl, rfl, rfl, rfl⟩,
   ⟨rfl, rfl, rfl, rfl, rfl, rfl⟩⟩

/-- Closed instance of `C10_with_builders_frame` at a concrete event. -/
theorem C10_with_builders_frame_witness :
    (({ action := UserEventAction.CLICK, extra := PyVal.int 5 : UserEvent
      }.with_session_id "sess").session_id = some "sess") ∧
    (({ action := UserEventAction.CLICK, extra := PyVal.int 5 : UserEvent
      }.with_session_id "sess").extra = PyVal.int 5) :=
  ⟨(C10_with_builders_frame
      { action := UserEventAction.CLICK, extra := PyVal.int 5 } "sess" "u"
      Option.none).1.1,
   (C10_with_builders_frame
      { action := UserEventAction.CLICK, extra := PyVal.int 5 } "sess" "u"
      Option.none).1.2.2.2.2.2⟩

/-- C3: over the page sequence Home, Home, Settings, Settings, Home the
spec-modelled `start_tracking(page_name)` emits exactly three
START_TRACKING-kind events carrying Home, Settings, Home in that order; an
empty or absent page name never emits and never updates the stored
last-logged page name; and the comparison is exact and case-sensitive:
Home followed by home emits twice. -/
theorem C3_page_tracking_dedup :
    runStartTracking
      [some "Home", some "Home", some "Settings", some "Settings", some "Home"] =
      (some "Home",
       [(UserEventAction.START_TRACKING, "Home"),
        (UserEventAction.START_TRACKING, "Settings"),
        (UserEventAction.START_TRACKING, "Home")]) ∧
    (∀ st : Option String,
      pageTrackStep st (some "") = (st, []) ∧
      pageTrackStep st Option.none = (st, [])) ∧
    runStartTracking [some "Home", some "home"] =
      (some "home",
       [(UserEventAction.START_TRACKING, "Home"),
        (UserEventAction.START_TRACKING, "home")]) := by
  refine ⟨by decide, fun st => ⟨?_, rfl⟩, by decide⟩
  simp [pageTrackStep]

/-- Closed instance of `C3_page_tracking_dedup`: an empty page name is a
no-op on concrete tracking state. -/
theorem C3_page_tracking_dedup_witness :
    pageTrackStep (some "Home") (some "") = (some "Home", []) ∧
    pageTrackStep Option.none Option.none = (Option.none, []) :=
  ⟨(C3_page_tracking_dedup.2.1 (some "Home")).1,
   (C3_page_tracking_dedup.2.1 Option.none).2⟩

/-- C5: identity resolution returns a non-empty explicit key verbatim;
an empty-string explicit key takes exactly the same checksum path as an
absent key (Python parses `key or "" + lead + hash` as
`key or ("" + lead + hash)`, so no malformed concatenation arises); and
with no key the identifier is the fixed `"pg-trk-"` stem followed by the
CRC-32 checksum of the label.  Determinism in `(key, label)` is inherent:
`resolveWidgetId` is a pure function of the two. -/
theorem C5_identity_resolution :
    (∀ (k : String) (label : PyVal), k ≠ "" →
      resolveWidgetId (PyVal.str k) label = PyVal.str k) ∧
    (∀ label : PyVal,
      resolveWidgetId (PyVal.str "") label = resolveWidgetId PyVal.none label) ∧
    (∀ label : PyVal,
      resolveWidgetId PyVal.none label =
        PyVal.str ("pg-trk-" ++ get_crc32_hash label)) := by
  refine ⟨?_, fun _ => rfl, ?_⟩
  · intro k label hk
    simp [resolveWidgetId, pyTruthy, hk]
  · intro label
    simp [resolveWidgetId, pyTruthy, defaultElementIdLead]

set_option maxRecDepth 1000000 in
/-- Closed instance of `C5_identity_resolution`, matching the golden ids in
`tests/test_widgets.py`: an explicit key is returned verbatim, and the
keyless path yields `pg-trk-15113830` for the label
"Test Button Without Key". -/
theorem C5_identity_resolution_witness :
    resolveWidgetId (PyVal.str "test_btn") (PyVal.str "Test Button Without Key") =
      PyVal.str "test_btn" ∧
    resolveWidgetId PyVal.none (PyVal.str "Test Button Without Key") =
      PyVal.str ("pg-trk-" ++ get_crc32_hash (PyVal.str "Test Button Without Key")) ∧
    get_crc32_hash (PyVal.str "Test Button Without Key") = "15113830" :=
  ⟨C5_identity_resolution.1 "test_btn" (PyVal.str "Test Button Without Key")
      (by decide),
   C5_identity_resolution.2.2 (PyVal.str "Test Button Without Key"),
   by decide⟩

/-- C1 (code-bug evidence): on this source tree, a single
`start_tracking()` on a freshly-instrumented host already raises:
`_wrap_st_functions` constructs `WrappedWidget` with the keyword
`mask_text_input_values`, which `WrappedWidget.__init__` does not accept,
so the very first wrap attempt raises `TypeError` instead of installing
wrappers — contradicting the claimed error-free idempotent
install/restore cycle (which the package's own tests exercise). -/
theorem C1_start_tracking_raises :
    wrap_st_functions initialHost =
      Except.error
        "TypeError: __init__() got an unexpected keyword argument mask_text_input_values" := by
  rfl

theorem attrIdxNonneg_sound (a : WidgetAttribute) (h : attrIdxNonneg a = true) :
    ∀ i, a.index = some i → 0 ≤ i := by
  intro i hi
  unfold attrIdxNonneg at h
  rw [hi] at h
  exact of_decide_eq_true h

theorem mappings_wf : ∀ m ∈ MAPPINGS,
    m.extraction_attributes.all (fun p => attrIdxNonneg p.2) = true ∧
    "label" ∈ m.extraction_attributes.map Prod.fst ∧
    "key" ∈ m.extraction_attributes.map Prod.fst ∧
    "value" ∉ m.extraction_attributes.map Prod.fst ∧
    ((kwLookup m.extraction_attributes "action").all
      (fun a => a.name != "key")) = true := by
  decide

theorem mappings_nonneg (m : WidgetMapping) (hm : m ∈ MAPPINGS) :
    ∀ p ∈ m.extraction_attributes, ∀ i, p.2.index = some i → 0 ≤ i := by
  intro p hp
  exact attrIdxNonneg_sound p.2
    (List.all_eq_true.mp (mappings_wf m hm).1 p hp)

/-- C7 counterexample: the claim's "extraction never raises an error" fails
on the code as stated.  A recipe whose declared positional index is `-3`
applied to two positional arguments passes every guard
(`arguments` truthy, index not `None`, `len(arguments) > -3`), and the
subsequent `arguments[-3]` raises `IndexError`, which
`check_and_get_attribute` does not catch. -/
theorem C7_extraction_counterexample :
    check_and_get_attribute { index := some (-3), name := "opts" }
      [PyVal.int 1, PyVal.int 2] [] =
      Except.error "IndexError: list index out of range" := by
  rfl

/-- C7 (amended): extraction follows the claimed per-field algorithm — a
bound keyword is taken and removed (even when its value is `None`);
otherwise a declared, in-bounds positional with a non-`None` value is taken
and removed, the remaining positional arguments keeping their relative
order; otherwise the field resolves to `None` with the argument
collections untouched — and, provided every declared positional index is
non-negative (as in every configured recipe; a negative index below
`-len(args)` raises `IndexError`, see the counterexample), extraction
never raises and leaves keyword arguments other than the declared name
untouched.  Declaration-order threading over a whole recipe is the
definition of `extractAllAttributes`, which runs this step once per field
on the collections mutated by the previous steps. -/
theorem C7_extraction_algorithm (attr : WidgetAttribute) (args : List PyVal)
    (kwargs : List (String × PyVal)) :
    (∀ v, kwLookup kwargs attr.name = some v →
      check_and_get_attribute attr args kwargs =
        Except.ok (v, args, kwErase kwargs attr.name)) ∧
    (∀ i v, kwLookup kwargs attr.name = Option.none → attr.index = some i →
      0 ≤ i → i < (args.length : Int) → args[i.toNat]? = some v →
      isPyNone v = false →
      check_and_get_attribute attr args kwargs =
        Except.ok (v, args.eraseIdx i.toNat, kwargs) ∧
      (args.eraseIdx i.toNat).Sublist args) ∧
    (kwLookup kwargs attr.name = Option.none → attr.index = Option.none →
      check_and_get_attribute attr args kwargs =
        Except.ok (PyVal.none, args, kwargs)) ∧
    (∀ i, kwLookup kwargs attr.name = Option.none → attr.index = some i →
      ¬(i < (args.length : Int)) →
      check_and_get_attribute attr args kwargs =
        Except.ok (PyVal.none, args, kwargs)) ∧
    (∀ i v, kwLookup kwargs attr.name = Option.none → attr.index = some i →
      0 ≤ i → i < (args.length : Int) → args[i.toNat]? = some v →
      isPyNone v = true →
      check_and_get_attribute attr args kwargs =
        Except.ok (PyVal.none, args, kwargs)) ∧
    ((∀ i, attr.index = some i → 0 ≤ i) →
      ∃ out, check_and_get_attribute attr args kwargs = Except.ok out ∧
        (∀ n, n ≠ attr.name → kwLookup out.2.2 n = kwLookup kwargs n)) := by
  refine ⟨?_, ?_, ?_, ?_, ?_, ?_⟩
  · intro v hkw
    simp [check_and_get_attribute, hkw]
  · intro i v hkw hidx h0 hlt hget hnone
    have hne : args ≠ [] := by
      intro hc
      subst hc
      simp at hlt
      omega
    have he : args.isEmpty = false := by
      simp [List.isEmpty_iff, hne]
    have hget' : pyListGet args i = some v := by
      simp [pyListGet, h0, hget]
    have hdel : pyListDel args i = args.eraseIdx i.toNat := by
      simp [pyListDel, h0]
    refine ⟨?_, List.eraseIdx_sublist args i.toNat⟩
    simp [check_and_get_attribute, hkw, hidx, he, hlt, hget', hnone, hdel]
  · intro hkw hidx
    simp [check_and_get_attribute, hkw, hidx]
  · intro i hkw hidx hlt
    by_cases he : args.isEmpty <;>
      simp [check_and_get_attribute, hkw, hidx, he, hlt]
  · intro i v hkw hidx h0 hlt hget hnone
    have hne : args ≠ [] := by
      intro hc
      subst hc
      simp at hlt
      omega
    have he : args.isEmpty = false := by
      simp [List.isEmpty_iff, hne]
    have hget' : pyListGet args i = some v := by
      simp [pyListGet, h0, hget]
    simp [check_and_get_attribute, hkw, hidx, he, hlt, hget', hnone]
  · intro hnn
    rcases check_and_get_props attr args kwargs hnn with
      ⟨v, args', kwargs', heq, _, _, hkw⟩
    exact ⟨(v, args', kwargs'), heq, hkw⟩

/-- Closed instance of `C7_extraction_algorithm`: the label field of the
button recipe is taken from position 0 and removed, preserving the
remaining positional argument. -/
theorem C7_extraction_algorithm_witness :
    check_and_get_attribute { index := some 0, name := "label" }
      [PyVal.str "A", PyVal.int 2] [("other", PyVal.int 1)] =
      Except.ok (PyVal.str "A", [PyVal.int 2], [("other", PyVal.int 1)]) ∧
    ([PyVal.int 2] : List PyVal).Sublist [PyVal.str "A", PyVal.int 2] :=
  (C7_extraction_algorithm { index := some 0, name := "label" }
    [PyVal.str "A", PyVal.int 2] [("other", PyVal.int 1)]).2.1
    0 (PyVal.str "A") rfl rfl (by decide) (by decide) rfl rfl

/-- C2: for a CHANGE-action invocation whose render-state lookup finds a
non-null value, the single emitted event carries the widget with:
`mask_all_values` set — every widget type's current value replaced by the
literal `"[REDACTED]"`; only `mask_text_input_values` set — exactly the
text-like types (`text_input`, `text_area`) redacted and every other
type's value passed through raw; both unset — the raw value. -/
theorem C2_masking_precedence (lg : UserEventLogger) (env : CallEnv)
    (args : List PyVal) (kwargs : List (String × PyVal))
    (st : List (String × PyVal)) (s : String) (v : PyVal)
    (hact : lg.action_type = UserEventAction.CHANGE)
    (hss : lg.session_state = some (PyVal.dict st))
    (hid : lg.widget.id = PyVal.str s)
    (hv : kwLookup st s = some v)
    (hnn : isPyNone v = false)
    (hlog : lg.has_logger_fn = true) :
    ∃ w, (logging_callback_fn env lg args kwargs).2.1 =
        [{ action := lg.action_type, widget := some w,
           extra := PyVal.dict
             [("args", PyVal.list args), ("kwargs", PyVal.dict kwargs)] }] ∧
      (lg.mask_all_values = true → w.values.current = PyVal.str "[REDACTED]") ∧
      (lg.mask_all_values = false → lg.mask_text_input_values = true →
        w.values.current =
          (if TEXT_INPUT_WIDGET_TYPES.contains lg.widget.type
           then PyVal.str "[REDACTED]" else v)) ∧
      (lg.mask_all_values = false → lg.mask_text_input_values = false →
        w.values.current = v) := by
  have hsub : pySubscript (PyVal.dict st) lg.widget.id = Except.ok v := by
    simp [pySubscript, hid, hv]
  have hupd : (extractAndUpdateWidgetValue lg).1 =
      lg.widget.update_value (maskWidgetValue lg v) := by
    unfold extractAndUpdateWidgetValue
    simp [hact, hss, hsub, hnn]
  refine ⟨lg.widget.update_value (maskWidgetValue lg v), ?_, ?_, ?_, ?_⟩
  · unfold logging_callback_fn
    simp [hlog, hupd]
  · intro hma
    simp [Widget.update_value, maskWidgetValue, hma]
  · intro hma hmt
    simp [Widget.update_value, maskWidgetValue, hma, hmt]
  · intro hma hmt
    simp [Widget.update_value, maskWidgetValue, hma, hmt]

/-- Closed instance of `C2_masking_precedence`: with `mask_all_values` set,
a selectbox value is redacted in the emitted event. -/
theorem C2_masking_precedence_witness :
    ∃ w, (logging_callback_fn (fun _ _ _ => PyVal.none)
        { widget :=
            { id := PyVal.str "sel", type := "selectbox",
              label := PyVal.str "Choose" },
          action_type := UserEventAction.CHANGE,
          has_logger_fn := true,
          session_state := some (PyVal.dict [("sel", PyVal.str "Option B")]),
          mask_all_values := true } [] []).2.1 =
        [{ action := UserEventAction.CHANGE, widget := some w,
           extra := PyVal.dict
             [("args", PyVal.list []), ("kwargs", PyVal.dict [])] }] ∧
      w.values.current = PyVal.str "[REDACTED]" := by
  obtain ⟨w, hw, hmask, h3, h4⟩ :=
    C2_masking_precedence
      { widget :=
          { id := PyVal.str "sel", type := "selectbox",
            label := PyVal.str "Choose" },
        action_type := UserEventAction.CHANGE,
        has_logger_fn := true,
        session_state := some (PyVal.dict [("sel", PyVal.str "Option B")]),
        mask_all_values := true }
      (fun _ _ _ => PyVal.none) [] [] [("sel", PyVal.str "Option B")] "sel"
      (PyVal.str "Option B") rfl rfl rfl rfl rfl rfl
  refine ⟨w, ?_, ?_⟩
  · exact hw
  · exact hmask rfl

/-- C8: whenever a logger-forwarding function is configured, the wrapping
callback forwards exactly one event per invocation; a CHANGE-action
lookup failure (missing key or wrong container type) is absorbed locally —
the widget is left unchanged and the single event is still forwarded; the
original developer callback, when it is a callable, is invoked with
exactly the received arguments and its result returned, and a missing
callback yields a `None` result. -/
theorem C8_exactly_one_event (lg : UserEventLogger) (env : CallEnv)
    (args : List PyVal) (kwargs : List (String × PyVal))
    (hlog : lg.has_logger_fn = true) :
    (logging_callback_fn env lg args kwargs).2.1.length = 1 ∧
    (∀ st err, lg.action_type = UserEventAction.CHANGE →
      lg.session_state = some st →
      pySubscript st lg.widget.id = Except.error err →
      (logging_callback_fn env lg args kwargs).1 = lg.widget ∧
      (logging_callback_fn env lg args kwargs).2.1.length = 1) ∧
    (∀ tag, lg.original_element_callback = PyVal.callback tag →
      (logging_callback_fn env lg args kwargs).2.2 =
        Except.ok (env tag args kwargs)) ∧
    (lg.original_element_callback = PyVal.none →
      (logging_callback_fn env lg args kwargs).2.2 = Except.ok PyVal.none) := by
  refine ⟨?_, ?_, ?_, ?_⟩
  · unfold logging_callback_fn
    simp [hlog]
  · intro st err hact hss herr
    have hupd : (extractAndUpdateWidgetValue lg).1 = lg.widget := by
      unfold extractAndUpdateWidgetValue
      simp [hact, hss, herr]
    constructor
    · unfold logging_callback_fn
      simp [hupd]
    · unfold logging_callback_fn
      simp [hlog]
  · intro tag hcb
    unfold logging_callback_fn
    simp [hcb, pyCall, isPyNone]
  · intro hcb
    unfold logging_callback_fn
    simp [hcb, isPyNone]

/-- Closed instance of `C8_exactly_one_event`: a CHANGE invocation whose
widget id is missing from render state still forwards exactly one event,
leaves the widget unchanged, and returns the developer callback's
result. -/
theorem C8_exactly_one_event_witness :
    ((logging_callback_fn (fun tag a _ => PyVal.list (PyVal.int tag :: a))
        { widget :=
            { id := PyVal.str "absent", type := "checkbox",
              label := PyVal.str "L" },
          action_type := UserEventAction.CHANGE,
          original_element_callback := PyVal.callback 9,
          has_logger_fn := true,
          session_state := some (PyVal.dict []) }
        [PyVal.int 1] []).2.1.length = 1) ∧
    ((logging_callback_fn (fun tag a _ => PyVal.list (PyVal.int tag :: a))
        { widget :=
            { id := PyVal.str "absent", type := "checkbox",
              label := PyVal.str "L" },
          action_type := UserEventAction.CHANGE,
          original_element_callback := PyVal.callback 9,
          has_logger_fn := true,
          session_state := some (PyVal.dict []) }
        [PyVal.int 1] []).1 =
      { id := PyVal.str "absent", type := "checkbox", label := PyVal.str "L" }) ∧
    ((logging_callback_fn (fun tag a _ => PyVal.list (PyVal.int tag :: a))
        { widget :=
            { id := PyVal.str "absent", type := "checkbox",
              label := PyVal.str "L" },
          action_type := UserEventAction.CHANGE,
          original_element_callback := PyVal.callback 9,
          has_logger_fn := true,
          session_state := some (PyVal.dict []) }
        [PyVal.int 1] []).2.2 =
      Except.ok (PyVal.list [PyVal.int 9, PyVal.int 1])) :=
  ⟨(C8_exactly_one_event
      { widget :=
          { id := PyVal.str "absent", type := "checkbox",
            label := PyVal.str "L" },
        action_type := UserEventAction.CHANGE,
        original_element_callback := PyVal.callback 9,
        has_logger_fn := true,
        session_state := some (PyVal.dict []) }
      (fun tag a _ => PyVal.list (PyVal.int tag :: a)) [PyVal.int 1] [] rfl).1,
   ((C8_exactly_one_event
      { widget :=
          { id := PyVal.str "absent", type := "checkbox",
            label := PyVal.str "L" },
        action_type := UserEventAction.CHANGE,
        original_element_callback := PyVal.callback 9,
        has_logger_fn := true,
        session_state := some (PyVal.dict []) }
      (fun tag a _ => PyVal.list (PyVal.int tag :: a)) [PyVal.int 1] [] rfl).2.1
      (PyVal.dict []) "KeyError" rfl rfl rfl).1,
   (C8_exactly_one_event
      { widget :=
          { id := PyVal.str "absent", type := "checkbox",
            label := PyVal.str "L" },
        action_type := UserEventAction.CHANGE,
        original_element_callback := PyVal.callback 9,
        has_logger_fn := true,
        session_state := some (PyVal.dict []) }
      (fun tag a _ => PyVal.list (PyVal.int tag :: a)) [PyVal.int 1] [] rfl).2.2.1
      9 rfl⟩

/-- C6: a wrapped widget-creation call forwards to the underlying host
function exactly the surviving arguments: the extracted label is prepended
first, the remaining positional arguments are a sublist of the originals
(relative order preserved, at most one removal per declared field), the
`key` keyword is forced to the resolved widget identifier, the recipe's
action keyword (when declared) carries the wrapping logger's callback, any
keyword whose name is not declared for extraction passes through with its
original value, and the wrapper returns the underlying function's result
unchanged. -/
theorem C6_argument_round_trip (ww : WrappedWidget)
    (widgetFn : List CallArg → List (String × CallArg) → PyVal)
    (args : List PyVal) (kwargs : List (String × PyVal))
    (hnn : ∀ p ∈ ww.widget_mapping.extraction_attributes, ∀ i,
      p.2.index = some i → 0 ≤ i)
    (hlabel : "label" ∈ ww.widget_mapping.extraction_attributes.map Prod.fst)
    (hkey : "key" ∈ ww.widget_mapping.extraction_attributes.map Prod.fst)
    (hakey : ∀ a, kwLookup ww.widget_mapping.extraction_attributes "action" = some a →
      a.name ≠ "key") :
    ∃ ew finalKwargs,
      extract_widget ww.widget_mapping.st_widget_name
        ww.widget_mapping.extraction_attributes args kwargs
        (PyVal.dict
          [("args", clean_values (PyVal.list args)),
           ("kwargs", clean_values (PyVal.dict kwargs))]) = Except.ok ew ∧
      wrapped_widget_fn ww widgetFn args kwargs =
        Except.ok (widgetFn
          (CallArg.val ew.widget.label :: ew.unextracted_args.map CallArg.val)
          finalKwargs) ∧
      ew.unextracted_args.Sublist args ∧
      args.length ≤ ew.unextracted_args.length +
        ww.widget_mapping.extraction_attributes.length ∧
      kwLookup finalKwargs "key" = some (CallArg.val ew.widget.id) ∧
      (∀ a, kwLookup ww.widget_mapping.extraction_attributes "action" = some a →
        kwLookup finalKwargs a.name =
          some (CallArg.loggerCallback (wrapLoggerOf ww ew))) ∧
      (∀ n, (∀ p ∈ ww.widget_mapping.extraction_attributes, p.2.name ≠ n) →
        n ≠ "key" →
        kwLookup finalKwargs n = (kwLookup kwargs n).map CallArg.val) := by
  rcases extract_widget_props ww.widget_mapping.st_widget_name
      ww.widget_mapping.extraction_attributes args kwargs
      (PyVal.dict
        [("args", clean_values (PyVal.list args)),
         ("kwargs", clean_values (PyVal.dict kwargs))])
      hnn hlabel hkey with
    ⟨ew, hok, hprev, hcur, hsub, hlen, hkwpres, htype, hextra⟩
  rcases haction : kwLookup ww.widget_mapping.extraction_attributes "action" with
    _ | a
  · refine ⟨ew,
      kwSet (ew.unextracted_kwargs.map (fun p => (p.1, CallArg.val p.2))) "key"
        (CallArg.val ew.widget.id),
      hok, ?_, hsub, hlen, ?_, ?_, ?_⟩
    · unfold wrapped_widget_fn
      rw [hok, haction]
    · exact kwLookup_kwSet_self _ "key" _
    · intro a' ha'
      exact Option.noConfusion ha'
    · intro n hn hnk
      rw [kwLookup_kwSet_ne _ "key" n _ hnk, kwLookup_map_val, hkwpres n hn]
  · have hamem : ("action", a) ∈ ww.widget_mapping.extraction_attributes :=
      kwLookup_mem_of_eq_some _ _ _ haction
    have hank : a.name ≠ "key" := hakey a haction
    refine ⟨ew,
      kwSet
        (kwSet (ew.unextracted_kwargs.map (fun p => (p.1, CallArg.val p.2))) "key"
          (CallArg.val ew.widget.id))
        a.name (CallArg.loggerCallback (wrapLoggerOf ww ew)),
      hok, ?_, hsub, hlen, ?_, ?_, ?_⟩
    · unfold wrapped_widget_fn
      rw [hok, haction]
    · rw [kwLookup_kwSet_ne _ a.name "key" _ (fun hrw => hank hrw.symm)]
      exact kwLookup_kwSet_self _ "key" _
    · intro a' ha'
      injection ha' with ha''
      subst ha''
      exact kwLookup_kwSet_self _ a.name _
    · intro n hn hnk
      have hna : n ≠ a.name := fun hrw => (hn ("action", a) hamem) hrw.symm
      rw [kwLookup_kwSet_ne _ a.name n _ hna,
        kwLookup_kwSet_ne _ "key" n _ hnk, kwLookup_map_val, hkwpres n hn]

/-- Closed instance of `C6_argument_round_trip` at the button recipe with a
positional label, a developer `on_click` callback, and an undeclared
`disabled` keyword. -/
theorem C6_argument_round_trip_witness :
    ∃ ew finalKwargs,
      extract_widget "button"
        [("label", { index := some 0, name := "label" }),
         ("key", { index := some 1, name := "key" }),
         ("action", { index := some 3, name := "on_click" })]
        [PyVal.str "Click me"]
        [("on_click", PyVal.callback 3), ("disabled", PyVal.bool true)]
        (PyVal.dict
          [("args", clean_values (PyVal.list [PyVal.str "Click me"])),
           ("kwargs", clean_values (PyVal.dict
             [("on_click", PyVal.callback 3),
              ("disabled", PyVal.bool true)]))]) = Except.ok ew ∧
      wrapped_widget_fn
        { widget_mapping :=
            { st_widget_name := "button",
              extraction_attributes :=
                [("label", { index := some 0, name := "label" }),
                 ("key", { index := some 1, name := "key" }),
                 ("action", { index := some 3, name := "on_click" })],
              action_type := UserEventAction.CLICK } }
        (fun _ _ => PyVal.int 7) [PyVal.str "Click me"]
        [("on_click", PyVal.callback 3), ("disabled", PyVal.bool true)] =
        Except.ok ((fun _ _ => PyVal.int 7)
          (CallArg.val ew.widget.label :: ew.unextracted_args.map CallArg.val)
          finalKwargs) ∧
      ew.unextracted_args.Sublist [PyVal.str "Click me"] ∧
      ([PyVal.str "Click me"] : List PyVal).length ≤ ew.unextracted_args.length + 3 ∧
      kwLookup finalKwargs "key" = some (CallArg.val ew.widget.id) ∧
      (∀ a : WidgetAttribute,
        kwLookup
          [("label", ({ index := some 0, name := "label" } : WidgetAttribute)),
           ("key", { index := some 1, name := "key" }),
           ("action", { index := some 3, name := "on_click" })] "action" = some a →
        kwLookup finalKwargs a.name =
          some (CallArg.loggerCallback
            (wrapLoggerOf
              { widget_mapping :=
                  { st_widget_name := "button",
                    extraction_attributes :=
                      [("label", { index := some 0, name := "label" }),
                       ("key", { index := some 1, name := "key" }),
                       ("action", { index := some 3, name := "on_click" })],
                    action_type := UserEventAction.CLICK } } ew))) ∧
      (∀ n, (∀ p ∈
          ([("label", ({ index := some 0, name := "label" } : WidgetAttribute)),
            ("key", { index := some 1, name := "key" }),
            ("action", { index := some 3, name := "on_click" })] :
            List (String × WidgetAttribute)), p.2.name ≠ n) →
        n ≠ "key" →
        kwLookup finalKwargs n =
          (kwLookup [("on_click", PyVal.callback 3),
            ("disabled", PyVal.bool true)] n).map CallArg.val) := by
  exact C6_argument_round_trip
    { widget_mapping :=
        { st_widget_name := "button",
          extraction_attributes :=
            [("label", { index := some 0, name := "label" }),
             ("key", { index := some 1, name := "key" }),
             ("action", { index := some 3, name := "on_click" })],
          action_type := UserEventAction.CLICK } }
    (fun _ _ => PyVal.int 7) [PyVal.str "Click me"]
    [("on_click", PyVal.callback 3), ("disabled", PyVal.bool true)]
    (by
      intro p hp i hi
      fin_cases hp <;> (injection hi with h; omega))
    (by decide) (by decide)
    (by
      intro a ha
      injection ha with h
      subst h
      decide)

theorem clean_values_dict (es : List (String × PyVal)) :
    clean_values (PyVal.dict es) = PyVal.dict (cleanEntries es) := by
  rfl

theorem bind_clean_some (v : PyVal) (h : checkIfEmptyOrNone v = false) :
    (Option.some v).bind
      (fun x => if checkIfEmptyOrNone x then Option.none else some (clean_values x)) =
      some (clean_values v) := by
  simp [Option.bind, h]

/-- C4: in the record serialised by `log_event` for any event the wrapping
callback emits, the `widget.values` object carries no `previous` key: for
every configured recipe the freshly extracted widget starts with both
value fields null (no recipe declares a `value` attribute), the single
pre-emission `update_value` therefore moves only a null into `previous`,
and `clean_values` strips null entries recursively before
serialisation. -/
theorem C4_no_previous_leakage (m : WidgetMapping) (args : List PyVal)
    (kwargs : List (String × PyVal)) (extra : PyVal) (ew : ExtractedWidget)
    (env : CallEnv) (ss : Option PyVal) (cbArgs : List PyVal)
    (cbKwargs : List (String × PyVal)) (sid uid : String) (e : UserEvent)
    (wd vs : PyVal)
    (hm : m ∈ MAPPINGS)
    (hew : extract_widget m.st_widget_name m.extraction_attributes args kwargs
      extra = Except.ok ew)
    (he : e ∈ (logging_callback_fn env
        { widget := ew.widget, action_type := m.action_type,
          original_element_callback := ew.original_action_callback_fn,
          has_logger_fn := true, session_state := ss } cbArgs cbKwargs).2.1)
    (hwd : recordLookup (logEventRecord sid uid e) "widget" = some wd)
    (hvs : recordLookup wd "values" = some vs) :
    recordLookup vs "previous" = Option.none := by
  rcases mappings_wf m hm with ⟨hall, hlabel, hkey, hvalue, _⟩
  have hnn := mappings_nonneg m hm
  rcases extract_widget_props m.st_widget_name m.extraction_attributes args kwargs
      extra hnn hlabel hkey with
    ⟨ew', hok', hprev', hcur', _, _, _, _, _⟩
  rw [hew] at hok'
  injection hok' with hew'
  subst hew'
  have hprev : ew.widget.values.previous = PyVal.none := hprev'
  have hcur : ew.widget.values.current = PyVal.none := hcur' hvalue
  set lg : UserEventLogger :=
    { widget := ew.widget, action_type := m.action_type,
      original_element_callback := ew.original_action_callback_fn,
      has_logger_fn := true, session_state := ss } with hlg
  have hevents : (logging_callback_fn env lg cbArgs cbKwargs).2.1 =
      [{ action := lg.action_type,
         widget := some ((extractAndUpdateWidgetValue lg).1),
         extra := PyVal.dict
           [("args", PyVal.list cbArgs), ("kwargs", PyVal.dict cbKwargs)] }] := by
    unfold logging_callback_fn
    rfl
  rw [hevents] at he
  rcases List.mem_singleton.mp he with he'
  subst he'
  have hwidget : ∃ w : Widget, (extractAndUpdateWidgetValue lg).1 = w ∧
      w.values.previous = PyVal.none :=
    match extractAndUpdate_cases lg with
    | Or.inl h => ⟨lg.widget, h, hprev⟩
    | Or.inr ⟨v, h⟩ => ⟨lg.widget.update_value (maskWidgetValue lg v), h, hcur⟩
  rcases hwidget with ⟨w, hw, hwprev⟩
  rw [hw] at hwd
  have hrec : logEventRecord sid uid
      { action := lg.action_type, widget := some w,
        extra := PyVal.dict
          [("args", PyVal.list cbArgs), ("kwargs", PyVal.dict cbKwargs)] } =
      PyVal.dict (cleanEntries
        [("session_id", optStr (some sid)),
         ("user_id", optStr (some uid)),
         ("page_name", optStr Option.none),
         ("action", PyVal.str lg.action_type.value),
         ("widget", w.to_dict),
         ("extra", if pyTruthy (PyVal.dict
             [("args", PyVal.list cbArgs), ("kwargs", PyVal.dict cbKwargs)])
           then PyVal.dict
             [("args", PyVal.list cbArgs), ("kwargs", PyVal.dict cbKwargs)]
           else PyVal.none)]) := by
    rfl
  rw [hrec] at hwd
  simp only [recordLookup] at hwd
  rw [kwLookup_cleanEntries _ "widget"
    (by simp only [List.map_cons, List.map_nil]; decide)] at hwd
  have hlook : kwLookup
      [("session_id", optStr (some sid)),
       ("user_id", optStr (some uid)),
       ("page_name", optStr Option.none),
       ("action", PyVal.str lg.action_type.value),
       ("widget", w.to_dict),
       ("extra", if pyTruthy (PyVal.dict
           [("args", PyVal.list cbArgs), ("kwargs", PyVal.dict cbKwargs)])
         then PyVal.dict
           [("args", PyVal.list cbArgs), ("kwargs", PyVal.dict cbKwargs)]
         else PyVal.none)] "widget" = some w.to_dict := by
    rfl
  rw [hlook] at hwd
  have hne : checkIfEmptyOrNone w.to_dict = false := by
    rfl
  rw [bind_clean_some _ hne] at hwd
  injection hwd with hwd'
  subst hwd'
  unfold Widget.to_dict at hvs
  rw [clean_values_dict] at hvs
  simp only [recordLookup] at hvs
  rw [kwLookup_cleanEntries _ "values"
    (by simp only [List.map_cons, List.map_nil]; decide)] at hvs
  have hlook2 : kwLookup
      [("id", w.id),
       ("type", PyVal.str w.type),
       ("label", w.label),
       ("values", PyVal.dict
          [("current", w.values.current), ("previous", w.values.previous)]),
       ("extra", w.extra)] "values" = some (PyVal.dict
          [("current", w.values.current), ("previous", w.values.previous)]) := by
    rfl
  rw [hlook2] at hvs
  have hne2 : checkIfEmptyOrNone (PyVal.dict
      [("current", w.values.current), ("previous", w.values.previous)]) = false := by
    rfl
  rw [bind_clean_some _ hne2] at hvs
  injection hvs with hvs'
  subst hvs'
  rw [clean_values_dict]
  simp only [recordLookup]
  rw [kwLookup_cleanEntries _ "previous"
    (by simp only [List.map_cons, List.map_nil]; decide)]
  have hlook3 : kwLookup
      [("current", w.values.current), ("previous", w.values.previous)]
      "previous" = some PyVal.none := by
    rw [hwprev]
    by_cases hc : ("current" == "previous")
    · simp at hc
    · rw [kwLookup_cons]
      simp only at hc
      simp only [hc, Bool.false_eq_true, if_false, kwLookup_cons]
      rfl
  rw [hlook3]
  rfl

/-- Closed instance of `C4_no_previous_leakage`: the cleaned record of a
concrete button click carries a `values` object with no `previous` key. -/
theorem C4_no_previous_leakage_witness :
    recordLookup (PyVal.dict []) "previous" = Option.none :=
  C4_no_previous_leakage
    { st_widget_name := "button",
      extraction_attributes :=
        [("label", { index := some 0, name := "label" }),
         ("key", { index := some 1, name := "key" }),
         ("action", { index := some 3, name := "on_click" })],
      action_type := UserEventAction.CLICK }
    [PyVal.str "L"] [("key", PyVal.str "btn")] PyVal.none
    { widget :=
        { id := PyVal.str "btn", type := "button", label := PyVal.str "L",
          values := {}, extra := PyVal.none },
      unextracted_args := [], unextracted_kwargs := [],
      original_action_callback_fn := PyVal.none }
    (fun _ _ _ => PyVal.none) Option.none [] [] "s" "u"
    { action := UserEventAction.CLICK,
      widget := some
        { id := PyVal.str "btn", type := "button", label := PyVal.str "L",
          values := {}, extra := PyVal.none },
      extra := PyVal.dict
        [("args", PyVal.list []), ("kwargs", PyVal.dict [])] }
    (PyVal.dict
      [("id", PyVal.str "btn"), ("type", PyVal.str "button"),
       ("label", PyVal.str "L"), ("values", PyVal.dict [])])
    (PyVal.dict [])
    (by decide) rfl (List.mem_singleton.mpr rfl) rfl rfl

end SPA
